import Mathlib

/-!
Shallow embedding of `src/astaroth/loadStore.cc` (pencil-code GPU halo
load/store engine): halo-width geometry (`initLoadStore`), staging-buffer
lifecycle (`initLoadStore` / `finalLoadStore`), the twelve directional
load/store operations building coordinate boxes, and the two batch drivers.
-/

namespace LoadStore

/-- Global configuration read by `loadStore.cc` (from `cparam_c.h` /
`cdata_c.h`): per-axis periodicity `lperi[0..2]`, first/last-subdomain flags,
the yin-yang topology flag, the ghost depth `nghost`, the interior extents
`nx, ny, nz` and the field count `NUM_VTXBUF_HANDLES`. -/
structure Config where
  lperi0 : Bool
  lperi1 : Bool
  lperi2 : Bool
  lfirst_proc_x : Bool
  llast_proc_x : Bool
  lfirst_proc_y : Bool
  llast_proc_y : Bool
  lfirst_proc_z : Bool
  llast_proc_z : Bool
  lyinyang : Bool
  nghost : Nat
  nx : Nat
  ny : Nat
  nz : Nat
  num_vtxbuf : Nat
  deriving DecidableEq

/-- Modelled from the spec: the full local extent along x including all ghost
layers ("local domain extents (with and without ghost layers)"), `mx = nx + 2*nghost`. -/
def Config.mx (c : Config) : Nat := c.nx + 2 * c.nghost

/-- Modelled from the spec: full local extent along y, `my = ny + 2*nghost`. -/
def Config.my (c : Config) : Nat := c.ny + 2 * c.nghost

/-- Modelled from the spec: full local extent along z, `mz = nz + 2*nghost`. -/
def Config.mz (c : Config) : Nat := c.nz + 2 * c.nghost

/-- `const int mxy = mx*my` of `loadStore.cc`. -/
def Config.mxy (c : Config) : Nat := c.mx * c.my

/-- Modelled from the spec: 1-based first interior index along x
("1-based interior-domain indices in the source formulation"), `l1 = nghost+1`. -/
def Config.l1 (c : Config) : Int := (c.nghost : Int) + 1

/-- Modelled from the spec: 1-based last interior index along x, `l2 = mx - nghost`. -/
def Config.l2 (c : Config) : Int := (c.mx : Int) - c.nghost

/-- Modelled from the spec: 1-based first interior index along y. -/
def Config.m1 (c : Config) : Int := (c.nghost : Int) + 1

/-- Modelled from the spec: 1-based last interior index along y. -/
def Config.m2 (c : Config) : Int := (c.my : Int) - c.nghost

/-- Modelled from the spec: 1-based first interior index along z. -/
def Config.n1 (c : Config) : Int := (c.nghost : Int) + 1

/-- Modelled from the spec: 1-based last interior index along z. -/
def Config.n2 (c : Config) : Int := (c.mz : Int) - c.nghost

/-- One axis's halo-width triple `{bottom, top, total}`
(the arrays `halo_widths_x/y/z[3]` indexed by `BOT, TOP, TOT`). -/
structure Widths where
  bot : Nat
  top : Nat
  tot : Nat
  deriving DecidableEq

/-- The mutable globals of `loadStore.cc`: the three width triples, the
staging-buffer sizes `halo_xz_size` / `halo_yz_size`, the four staging-buffer
pointers (modelled as `Option` allocation ids), a fresh-id counter standing
for the allocator, and a log of the pointers passed to `free`. -/
structure LSState where
  hwx : Widths
  hwy : Widths
  hwz : Widths
  halo_xz_size_bot : Nat
  halo_xz_size_top : Nat
  halo_yz_size_bot : Nat
  halo_yz_size_top : Nat
  halo_xz_buffer_bot : Option Nat
  halo_xz_buffer_top : Option Nat
  halo_yz_buffer_bot : Option Nat
  halo_yz_buffer_top : Option Nat
  nextId : Nat
  freeLog : List Nat
  deriving DecidableEq

/-- State at program start: the static initializers
`halo_widths_* = {nghost, nghost, 2*nghost}`, zero sizes, null buffers. -/
def initialState (c : Config) : LSState where
  hwx := ⟨c.nghost, c.nghost, 2 * c.nghost⟩
  hwy := ⟨c.nghost, c.nghost, 2 * c.nghost⟩
  hwz := ⟨c.nghost, c.nghost, 2 * c.nghost⟩
  halo_xz_size_bot := 0
  halo_xz_size_top := 0
  halo_yz_size_bot := 0
  halo_yz_size_top := 0
  halo_xz_buffer_bot := none
  halo_xz_buffer_top := none
  halo_yz_buffer_bot := none
  halo_yz_buffer_top := none
  nextId := 0
  freeLog := []

/-- `if (buffer == NULL) buffer = malloc(...)`: allocate a fresh id only when
the pointer is currently null. Returns the new pointer and the next fresh id. -/
def allocIfNull (buf : Option Nat) (next : Nat) : Option Nat × Nat :=
  match buf with
  | none => (some next, next + 1)
  | some p => (some p, next)

/-- `initLoadStore()`: widen the per-axis halo widths on non-periodic outer
subdomain boundaries (skipping y/z when `lyinyang`), set totals, compute the
staging sizes, and allocate each of the four staging buffers if still null
(loop `i = BOT..TOP`, allocating `halo_xz_buffer[i]` then `halo_yz_buffer[i]`). -/
def initLoadStore (c : Config) (s : LSState) : LSState :=
  let hwx_bot := if !c.lperi0 && c.lfirst_proc_x then c.nghost + 1 else s.hwx.bot
  let hwx_top := if !c.lperi0 && c.llast_proc_x then c.nghost + 1 else s.hwx.top
  let hwy_bot := if !c.lyinyang && (!c.lperi1 && c.lfirst_proc_y) then c.nghost + 1 else s.hwy.bot
  let hwy_top := if !c.lyinyang && (!c.lperi1 && c.llast_proc_y) then c.nghost + 1 else s.hwy.top
  let hwz_bot := if !c.lyinyang && (!c.lperi2 && c.lfirst_proc_z) then c.nghost + 1 else s.hwz.bot
  let hwz_top := if !c.lyinyang && (!c.lperi2 && c.llast_proc_z) then c.nghost + 1 else s.hwz.top
  let p1 := allocIfNull s.halo_xz_buffer_bot s.nextId
  let p2 := allocIfNull s.halo_yz_buffer_bot p1.2
  let p3 := allocIfNull s.halo_xz_buffer_top p2.2
  let p4 := allocIfNull s.halo_yz_buffer_top p3.2
  { hwx := ⟨hwx_bot, hwx_top, hwx_bot + hwx_top⟩
    hwy := ⟨hwy_bot, hwy_top, hwy_bot + hwy_top⟩
    hwz := ⟨hwz_bot, hwz_top, hwz_bot + hwz_top⟩
    halo_xz_size_bot := c.mx * c.nz * hwy_bot * c.num_vtxbuf
    halo_xz_size_top := c.mx * c.nz * hwy_top * c.num_vtxbuf
    halo_yz_size_bot := c.ny * c.nz * hwx_bot * c.num_vtxbuf
    halo_yz_size_top := c.ny * c.nz * hwx_top * c.num_vtxbuf
    halo_xz_buffer_bot := p1.1
    halo_yz_buffer_bot := p2.1
    halo_xz_buffer_top := p3.1
    halo_yz_buffer_top := p4.1
    nextId := p4.2
    freeLog := s.freeLog }

/-- The state after calling `initLoadStore` once from program start. -/
def initS (c : Config) : LSState := initLoadStore c (initialState c)

/-- `free(ptr)`: record the released pointer in the free log (freeing a null
pointer is a no-op); the pointer variable itself is NOT modified. -/
def freeBuf (buf : Option Nat) (log : List Nat) : List Nat :=
  match buf with
  | none => log
  | some p => log ++ [p]

/-- `finalLoadStore()`: `free` the four staging buffers in loop order
(`halo_xz_buffer[i]` then `halo_yz_buffer[i]` for `i = BOT, TOP`); the
pointer variables are left unchanged (not set to null). -/
def finalLoadStore (s : LSState) : LSState :=
  let log1 := freeBuf s.halo_xz_buffer_bot s.freeLog
  let log2 := freeBuf s.halo_yz_buffer_bot log1
  let log3 := freeBuf s.halo_xz_buffer_top log2
  let log4 := freeBuf s.halo_yz_buffer_top log3
  { s with freeLog := log4 }

/-- The `int3` coordinate triples of the source. -/
structure Int3 where
  x : Int
  y : Int
  z : Int
  deriving DecidableEq

/-- The plate tags `AC_XZ` / `AC_YZ` passed to the staged-plate primitives. -/
inductive PlateTag where
  | AC_XZ
  | AC_YZ
  deriving DecidableEq

/-- Which of the four staging buffers a staged transfer goes through. -/
inductive BufId where
  | xz_bot
  | xz_top
  | yz_bot
  | yz_top
  deriving DecidableEq

/-- The astaroth transfer primitives invoked by `loadStore.cc`, as issued-call
descriptors: `acNodeLoadMeshWithOffset` (bulk contiguous copy of
`num_vertices` elements from linear offset `src`), `acNodeLoadPlateXcomp` /
`acNodeLoadPlate` / `acNodeStorePlate` (staged plate transfers through a host
buffer, over the box `[start, fin)`), and `acNodeStoreIXYPlate` (inner xy
plane store tagged with a side `BOT`/`TOP`). -/
inductive TransferCmd where
  | loadMeshWithOffset (src dst : Int3) (num_vertices : Int)
  | loadPlateXcomp (start fin : Int3) (buf : BufId) (tag : PlateTag)
  | loadPlate (start fin : Int3) (buf : BufId) (tag : PlateTag)
  | storeIXYPlate (start fin : Int3) (side : Nat)
  | storePlate (start fin : Int3) (buf : BufId) (tag : PlateTag)
  deriving DecidableEq

/-- `BOT = 0`. -/
def BOT : Nat := 0
/-- `TOP = 1`. -/
def TOP : Nat := 1

/-- Execution channels: `STREAM_DEFAULT` and the numbered astaroth streams;
distinct enumerators modelled as distinct naturals. -/
def STREAM_DEFAULT : Nat := 0
def STREAM_1 : Nat := 1
def STREAM_2 : Nat := 2
def STREAM_3 : Nat := 3
def STREAM_4 : Nat := 4
def STREAM_5 : Nat := 5
def STREAM_6 : Nat := 6

/-- `loadOuterFront`: bulk copy of `mxy*halo_widths_z[BOT]` vertices from
`src = {0,0,0}`. -/
def loadOuterFrontCmd (c : Config) (s : LSState) : TransferCmd :=
  .loadMeshWithOffset ⟨0, 0, 0⟩ ⟨0, 0, 0⟩ ((c.mxy : Int) * s.hwz.bot)

/-- `loadOuterBack`: bulk copy of `mxy*halo_widths_z[TOP]` vertices from
`src = {0,0,mz-halo_widths_z[TOP]}`. -/
def loadOuterBackCmd (c : Config) (s : LSState) : TransferCmd :=
  .loadMeshWithOffset ⟨0, 0, (c.mz : Int) - s.hwz.top⟩ ⟨0, 0, (c.mz : Int) - s.hwz.top⟩
    ((c.mxy : Int) * s.hwz.top)

/-- `loadOuterBot`: staged plate over
`{0,0,hwz[BOT]} .. {mx,hwy[BOT],mz-hwz[TOP]}` through `halo_xz_buffer[BOT]`. -/
def loadOuterBotCmd (c : Config) (s : LSState) : TransferCmd :=
  .loadPlateXcomp ⟨0, 0, (s.hwz.bot : Int)⟩
    ⟨(c.mx : Int), (s.hwy.bot : Int), (c.mz : Int) - s.hwz.top⟩ .xz_bot .AC_XZ

/-- `loadOuterTop`: staged plate over
`{0,my-hwy[TOP],hwz[BOT]} .. {mx,my,mz-hwz[TOP]}` through `halo_xz_buffer[TOP]`. -/
def loadOuterTopCmd (c : Config) (s : LSState) : TransferCmd :=
  .loadPlateXcomp ⟨0, (c.my : Int) - s.hwy.top, (s.hwz.bot : Int)⟩
    ⟨(c.mx : Int), (c.my : Int), (c.mz : Int) - s.hwz.top⟩ .xz_top .AC_XZ

/-- `loadOuterLeft`: staged plate with end written `{...-1}+1` in the source,
through `halo_yz_buffer[BOT]`. -/
def loadOuterLeftCmd (c : Config) (s : LSState) : TransferCmd :=
  .loadPlate ⟨0, (s.hwy.bot : Int), (s.hwz.bot : Int)⟩
    ⟨((s.hwx.bot : Int) - 1) + 1, ((c.my : Int) - s.hwy.top - 1) + 1,
      ((c.mz : Int) - s.hwz.top - 1) + 1⟩ .yz_bot .AC_YZ

/-- `loadOuterRight`: staged plate starting at `x = mx-hwx[TOP]`, through
`halo_yz_buffer[TOP]`. -/
def loadOuterRightCmd (c : Config) (s : LSState) : TransferCmd :=
  .loadPlate ⟨(c.mx : Int) - s.hwx.top, (s.hwy.bot : Int), (s.hwz.bot : Int)⟩
    ⟨((c.mx : Int) - 1) + 1, ((c.my : Int) - s.hwy.top - 1) + 1,
      ((c.mz : Int) - s.hwz.top - 1) + 1⟩ .yz_top .AC_YZ

/-- `storeInnerFront`: inner xy plane `{l1,m1,n1}-1 .. {l2,m2,n1+hwz[BOT]-1}-1+1`,
side tag `BOT`. -/
def storeInnerFrontCmd (c : Config) (s : LSState) : TransferCmd :=
  .storeIXYPlate ⟨c.l1 - 1, c.m1 - 1, c.n1 - 1⟩
    ⟨(c.l2 - 1) + 1, (c.m2 - 1) + 1, ((c.n1 + s.hwz.bot - 1) - 1) + 1⟩ BOT

/-- `storeInnerBack`: inner xy plane `{l1,m1,n2-hwz[TOP]+1}-1 .. {l2,m2,n2}-1+1`,
side tag `TOP`. -/
def storeInnerBackCmd (c : Config) (s : LSState) : TransferCmd :=
  .storeIXYPlate ⟨c.l1 - 1, c.m1 - 1, (c.n2 - s.hwz.top + 1) - 1⟩
    ⟨(c.l2 - 1) + 1, (c.m2 - 1) + 1, (c.n2 - 1) + 1⟩ TOP

/-- `storeInnerBot`: staged plate `{l1,m1,n1+hwz[BOT]}-1 ..
{l2,m1+hwy[BOT]-1,n2-hwz[TOP]}-1+1` through `halo_xz_buffer[BOT]`. -/
def storeInnerBotCmd (c : Config) (s : LSState) : TransferCmd :=
  .storePlate ⟨c.l1 - 1, c.m1 - 1, (c.n1 + s.hwz.bot) - 1⟩
    ⟨(c.l2 - 1) + 1, ((c.m1 + s.hwy.bot - 1) - 1) + 1, ((c.n2 - s.hwz.top) - 1) + 1⟩
    .xz_bot .AC_XZ

/-- `storeInnerTop`: staged plate `{l1,m2-hwy[TOP]+1,n1+hwz[BOT]}-1 ..
{l2,m2,n2-hwz[TOP]}-1+1` through `halo_xz_buffer[TOP]`. -/
def storeInnerTopCmd (c : Config) (s : LSState) : TransferCmd :=
  .storePlate ⟨c.l1 - 1, (c.m2 - s.hwy.top + 1) - 1, (c.n1 + s.hwz.bot) - 1⟩
    ⟨(c.l2 - 1) + 1, (c.m2 - 1) + 1, ((c.n2 - s.hwz.top) - 1) + 1⟩ .xz_top .AC_XZ

/-- `storeInnerLeft`: staged plate `{l1,m1+hwy[BOT],n1+hwz[BOT]}-1 ..
{l1+hwx[BOT]-1,m2-hwy[TOP],n2-hwz[TOP]}-1+1` through `halo_yz_buffer[BOT]`. -/
def storeInnerLeftCmd (c : Config) (s : LSState) : TransferCmd :=
  .storePlate ⟨c.l1 - 1, (c.m1 + s.hwy.bot) - 1, (c.n1 + s.hwz.bot) - 1⟩
    ⟨((c.l1 + s.hwx.bot - 1) - 1) + 1, ((c.m2 - s.hwy.top) - 1) + 1,
      ((c.n2 - s.hwz.top) - 1) + 1⟩ .yz_bot .AC_YZ

/-- `storeInnerRight`: staged plate `{l2-hwx[TOP]+1,m1+hwy[BOT],n1+hwz[BOT]}-1 ..
{l2,m2-hwy[TOP],n2-hwz[TOP]}-1+1` through `halo_yz_buffer[TOP]`. -/
def storeInnerRightCmd (c : Config) (s : LSState) : TransferCmd :=
  .storePlate ⟨(c.l2 - s.hwx.top + 1) - 1, (c.m1 + s.hwy.bot) - 1, (c.n1 + s.hwz.bot) - 1⟩
    ⟨(c.l2 - 1) + 1, ((c.m2 - s.hwy.top) - 1) + 1, ((c.n2 - s.hwz.top) - 1) + 1⟩
    .yz_top .AC_YZ

/-- `loadOuterHalos`: the six loads, all on `STREAM_DEFAULT`, in source order
front, back, top, bot, left, right. -/
def loadOuterHalos (c : Config) (s : LSState) : List (Nat × TransferCmd) :=
  [(STREAM_DEFAULT, loadOuterFrontCmd c s),
   (STREAM_DEFAULT, loadOuterBackCmd c s),
   (STREAM_DEFAULT, loadOuterTopCmd c s),
   (STREAM_DEFAULT, loadOuterBotCmd c s),
   (STREAM_DEFAULT, loadOuterLeftCmd c s),
   (STREAM_DEFAULT, loadOuterRightCmd c s)]

/-- `storeInnerHalos`: the six stores, each on its own stream, in source order
left (4), right (5), bot (2), top (3), front (6), back (1). -/
def storeInnerHalos (c : Config) (s : LSState) : List (Nat × TransferCmd) :=
  [(STREAM_4, storeInnerLeftCmd c s),
   (STREAM_5, storeInnerRightCmd c s),
   (STREAM_2, storeInnerBotCmd c s),
   (STREAM_3, storeInnerTopCmd c s),
   (STREAM_6, storeInnerFrontCmd c s),
   (STREAM_1, storeInnerBackCmd c s)]

/-- Linear index of a mesh cell in the x-fastest layout:
`idx = x + mx*y + mx*my*z`. -/
def lin (c : Config) (p : Int3) : Int :=
  p.x + (c.mx : Int) * p.y + (c.mxy : Int) * p.z

/-- Membership of a cell in the full local mesh `[0,mx) × [0,my) × [0,mz)`. -/
def inMesh (c : Config) (p : Int3) : Prop :=
  0 ≤ p.x ∧ p.x < (c.mx : Int) ∧ 0 ≤ p.y ∧ p.y < (c.my : Int) ∧
    0 ≤ p.z ∧ p.z < (c.mz : Int)

instance (c : Config) (p : Int3) : Decidable (inMesh c p) := by
  unfold inMesh; infer_instance

/-- Membership in an inclusive-start, exclusive-end coordinate box. -/
def inBox (s e p : Int3) : Prop :=
  s.x ≤ p.x ∧ p.x < e.x ∧ s.y ≤ p.y ∧ p.y < e.y ∧ s.z ≤ p.z ∧ p.z < e.z

instance (s e p : Int3) : Decidable (inBox s e p) := by
  unfold inBox; infer_instance

/-- The set of mesh cells a transfer command touches: for a bulk copy, the
cells whose linear index falls in `[lin src, lin src + num_vertices)`; for
the box-based primitives, the cells of the box. -/
def cmdCells (c : Config) (t : TransferCmd) (p : Int3) : Prop :=
  match t with
  | .loadMeshWithOffset src _ n =>
      inMesh c p ∧ lin c src ≤ lin c p ∧ lin c p < lin c src + n
  | .loadPlateXcomp s e _ _ => inMesh c p ∧ inBox s e p
  | .loadPlate s e _ _ => inMesh c p ∧ inBox s e p
  | .storeIXYPlate s e _ => inMesh c p ∧ inBox s e p
  | .storePlate s e _ _ => inMesh c p ∧ inBox s e p

instance (c : Config) (t : TransferCmd) (p : Int3) : Decidable (cmdCells c t p) :=
  match t with
  | .loadMeshWithOffset _ _ _ => inferInstanceAs (Decidable (_ ∧ _ ∧ _))
  | .loadPlateXcomp _ _ _ _ => inferInstanceAs (Decidable (_ ∧ _))
  | .loadPlate _ _ _ _ => inferInstanceAs (Decidable (_ ∧ _))
  | .storeIXYPlate _ _ _ => inferInstanceAs (Decidable (_ ∧ _))
  | .storePlate _ _ _ _ => inferInstanceAs (Decidable (_ ∧ _))

/-- Membership in the interior box
`[hwx[BOT], mx-hwx[TOP]) × [hwy[BOT], my-hwy[TOP]) × [hwz[BOT], mz-hwz[TOP])`. -/
def inInterior (c : Config) (s : LSState) (p : Int3) : Prop :=
  inBox ⟨(s.hwx.bot : Int), (s.hwy.bot : Int), (s.hwz.bot : Int)⟩
    ⟨(c.mx : Int) - s.hwx.top, (c.my : Int) - s.hwy.top, (c.mz : Int) - s.hwz.top⟩ p

instance (c : Config) (s : LSState) (p : Int3) : Decidable (inInterior c s p) := by
  unfold inInterior; infer_instance

/-- The halo shell: mesh cells outside the interior box. -/
def inShell (c : Config) (s : LSState) (p : Int3) : Prop :=
  inMesh c p ∧ ¬ inInterior c s p

instance (c : Config) (s : LSState) (p : Int3) : Decidable (inShell c s p) := by
  unfold inShell; infer_instance

/-- Membership in the 0-based interior region derived from the 1-based bounds
`l1..l2, m1..m2, n1..n2` (start `l1-1`, exclusive end `l2`). -/
def inInteriorLMN (c : Config) (p : Int3) : Prop :=
  inBox ⟨c.l1 - 1, c.m1 - 1, c.n1 - 1⟩ ⟨c.l2, c.m2, c.n2⟩ p

instance (c : Config) (p : Int3) : Decidable (inInteriorLMN c p) := by
  unfold inInteriorLMN; infer_instance

/-- A box is proper when `start < end` on all three axes. -/
def properBox (s e : Int3) : Prop :=
  s.x < e.x ∧ s.y < e.y ∧ s.z < e.z

instance (s e : Int3) : Decidable (properBox s e) := by
  unfold properBox; infer_instance

/-- The coordinate box of a box-based transfer command (a bulk copy carries no
box; it returns the degenerate pair `(src, src)`). -/
def cmdBox (t : TransferCmd) : Int3 × Int3 :=
  match t with
  | .loadMeshWithOffset src _ _ => (src, src)
  | .loadPlateXcomp s e _ _ => (s, e)
  | .loadPlate s e _ _ => (s, e)
  | .storeIXYPlate s e _ => (s, e)
  | .storePlate s e _ _ => (s, e)

/-- Whether a transfer command goes through a host staging buffer. -/
def usesStaging (t : TransferCmd) : Bool :=
  match t with
  | .loadMeshWithOffset _ _ _ => false
  | .loadPlateXcomp _ _ _ _ => true
  | .loadPlate _ _ _ _ => true
  | .storeIXYPlate _ _ _ => false
  | .storePlate _ _ _ _ => true

/-- The number of mesh cells in the box `[s, e)`. -/
def boxVolume (s e : Int3) : Nat :=
  (e.x - s.x).toNat * (e.y - s.y).toNat * (e.z - s.z).toNat

/-- Bounds on the halo widths after `initLoadStore` from program start: each
side's width lies between `nghost` and `nghost+1`, and the total is the sum. -/
theorem initS_width_bounds (c : Config) :
    (c.nghost ≤ (initS c).hwx.bot ∧ (initS c).hwx.bot ≤ c.nghost + 1) ∧
    (c.nghost ≤ (initS c).hwx.top ∧ (initS c).hwx.top ≤ c.nghost + 1) ∧
    (c.nghost ≤ (initS c).hwy.bot ∧ (initS c).hwy.bot ≤ c.nghost + 1) ∧
    (c.nghost ≤ (initS c).hwy.top ∧ (initS c).hwy.top ≤ c.nghost + 1) ∧
    (c.nghost ≤ (initS c).hwz.bot ∧ (initS c).hwz.bot ≤ c.nghost + 1) ∧
    (c.nghost ≤ (initS c).hwz.top ∧ (initS c).hwz.top ≤ c.nghost + 1) ∧
    (initS c).hwx.tot = (initS c).hwx.bot + (initS c).hwx.top ∧
    (initS c).hwy.tot = (initS c).hwy.bot + (initS c).hwy.top ∧
    (initS c).hwz.tot = (initS c).hwz.bot + (initS c).hwz.top := by
  simp only [initS, initLoadStore, initialState]
  refine ⟨?_, ?_, ?_, ?_, ?_, ?_, ?_, ?_, ?_⟩ <;> first
  | trivial
  | (split <;> omega)

/-- C1: after `initLoadStore`, each axis's bottom and top halo width equals
`nghost`, except that a non-periodic axis gets `nghost+1` on the bottom when
the subdomain is first and on the top when it is last along that axis — for
y and z this widening is skipped entirely when the yin-yang mode is active —
and each axis's total width is bottom plus top. -/
theorem C1_initLoadStore_widths (c : Config) :
    (initS c).hwx.bot
      = (if c.lperi0 = false ∧ c.lfirst_proc_x = true then c.nghost + 1 else c.nghost) ∧
    (initS c).hwx.top
      = (if c.lperi0 = false ∧ c.llast_proc_x = true then c.nghost + 1 else c.nghost) ∧
    (initS c).hwy.bot
      = (if c.lyinyang = false ∧ c.lperi1 = false ∧ c.lfirst_proc_y = true
          then c.nghost + 1 else c.nghost) ∧
    (initS c).hwy.top
      = (if c.lyinyang = false ∧ c.lperi1 = false ∧ c.llast_proc_y = true
          then c.nghost + 1 else c.nghost) ∧
    (initS c).hwz.bot
      = (if c.lyinyang = false ∧ c.lperi2 = false ∧ c.lfirst_proc_z = true
          then c.nghost + 1 else c.nghost) ∧
    (initS c).hwz.top
      = (if c.lyinyang = false ∧ c.lperi2 = false ∧ c.llast_proc_z = true
          then c.nghost + 1 else c.nghost) ∧
    (initS c).hwx.tot = (initS c).hwx.bot + (initS c).hwx.top ∧
    (initS c).hwy.tot = (initS c).hwy.bot + (initS c).hwy.top ∧
    (initS c).hwz.tot = (initS c).hwz.bot + (initS c).hwz.top := by
  simp only [initS, initLoadStore, initialState, Bool.and_eq_true, Bool.not_eq_true']
  refine ⟨?_, ?_, ?_, ?_, ?_, ?_, ?_, ?_, ?_⟩ <;> trivial

/-- A configuration in yin-yang mode with a non-periodic y axis and the
subdomain first along y: the y bottom width stays at `nghost`. -/
def cfgC3 : Config where
  lperi0 := true
  lperi1 := false
  lperi2 := true
  lfirst_proc_x := false
  llast_proc_x := false
  lfirst_proc_y := true
  llast_proc_y := false
  lfirst_proc_z := false
  llast_proc_z := false
  lyinyang := true
  nghost := 1
  nx := 4
  ny := 4
  nz := 4
  num_vtxbuf := 1

/-- C3 counterexample: with the yin-yang mode active, a non-periodic y axis
whose subdomain is first along y keeps bottom width `nghost`, not `nghost+1`
as the claim demands. -/
theorem C3_counterexample :
    cfgC3.lperi1 = false ∧ cfgC3.lfirst_proc_y = true ∧
    (initS cfgC3).hwy.bot = cfgC3.nghost ∧
    ¬ (initS cfgC3).hwy.bot = cfgC3.nghost + 1 := by decide

/-- C3 amended: when the yin-yang mode is inactive, for all periodicity and
first/last position flags, bottom+top equals the total width and each side's
width is `nghost`, except `nghost+1` on a side that is both non-periodic and
outermost along its axis. -/
theorem C3_amended_widths (c : Config) (hyy : c.lyinyang = false) :
    (initS c).hwx.bot + (initS c).hwx.top = (initS c).hwx.tot ∧
    (initS c).hwy.bot + (initS c).hwy.top = (initS c).hwy.tot ∧
    (initS c).hwz.bot + (initS c).hwz.top = (initS c).hwz.tot ∧
    (initS c).hwx.bot
      = (if c.lperi0 = false ∧ c.lfirst_proc_x = true then c.nghost + 1 else c.nghost) ∧
    (initS c).hwx.top
      = (if c.lperi0 = false ∧ c.llast_proc_x = true then c.nghost + 1 else c.nghost) ∧
    (initS c).hwy.bot
      = (if c.lperi1 = false ∧ c.lfirst_proc_y = true then c.nghost + 1 else c.nghost) ∧
    (initS c).hwy.top
      = (if c.lperi1 = false ∧ c.llast_proc_y = true then c.nghost + 1 else c.nghost) ∧
    (initS c).hwz.bot
      = (if c.lperi2 = false ∧ c.lfirst_proc_z = true then c.nghost + 1 else c.nghost) ∧
    (initS c).hwz.top
      = (if c.lperi2 = false ∧ c.llast_proc_z = true then c.nghost + 1 else c.nghost) := by
  simp only [initS, initLoadStore, initialState, hyy, Bool.and_eq_true, Bool.not_eq_true',
    Bool.not_false, Bool.true_and]
  refine ⟨?_, ?_, ?_, ?_, ?_, ?_, ?_, ?_, ?_⟩ <;> trivial

/-- A concrete non-yin-yang configuration: non-periodic x with the subdomain
first along x, periodic y and z. -/
def cfgC3w : Config where
  lperi0 := false
  lperi1 := true
  lperi2 := true
  lfirst_proc_x := true
  llast_proc_x := false
  lfirst_proc_y := false
  llast_proc_y := false
  lfirst_proc_z := false
  llast_proc_z := false
  lyinyang := false
  nghost := 3
  nx := 8
  ny := 8
  nz := 8
  num_vtxbuf := 2

/-- C3 amended witness at a concrete non-yin-yang configuration. -/
theorem C3_amended_widths_witness :
    (initS cfgC3w).hwx.bot + (initS cfgC3w).hwx.top = (initS cfgC3w).hwx.tot ∧
    (initS cfgC3w).hwy.bot + (initS cfgC3w).hwy.top = (initS cfgC3w).hwy.tot ∧
    (initS cfgC3w).hwz.bot + (initS cfgC3w).hwz.top = (initS cfgC3w).hwz.tot ∧
    (initS cfgC3w).hwx.bot
      = (if cfgC3w.lperi0 = false ∧ cfgC3w.lfirst_proc_x = true
          then cfgC3w.nghost + 1 else cfgC3w.nghost) ∧
    (initS cfgC3w).hwx.top
      = (if cfgC3w.lperi0 = false ∧ cfgC3w.llast_proc_x = true
          then cfgC3w.nghost + 1 else cfgC3w.nghost) ∧
    (initS cfgC3w).hwy.bot
      = (if cfgC3w.lperi1 = false ∧ cfgC3w.lfirst_proc_y = true
          then cfgC3w.nghost + 1 else cfgC3w.nghost) ∧
    (initS cfgC3w).hwy.top
      = (if cfgC3w.lperi1 = false ∧ cfgC3w.llast_proc_y = true
          then cfgC3w.nghost + 1 else cfgC3w.nghost) ∧
    (initS cfgC3w).hwz.bot
      = (if cfgC3w.lperi2 = false ∧ cfgC3w.lfirst_proc_z = true
          then cfgC3w.nghost + 1 else cfgC3w.nghost) ∧
    (initS cfgC3w).hwz.top
      = (if cfgC3w.lperi2 = false ∧ cfgC3w.llast_proc_z = true
          then cfgC3w.nghost + 1 else cfgC3w.nghost) :=
  C3_amended_widths cfgC3w (by decide)

/-- C5: a second `initLoadStore` after a first successful call is idempotent —
each of the four staging-buffer pointers keeps its identity (allocation is
guarded by the null check), and the recomputed widths and sizes agree, so the
whole observable state after the second call equals the state after the first. -/
theorem C5_init_idempotent (c : Config) :
    (initLoadStore c (initS c)).halo_xz_buffer_bot = (initS c).halo_xz_buffer_bot ∧
    (initLoadStore c (initS c)).halo_xz_buffer_top = (initS c).halo_xz_buffer_top ∧
    (initLoadStore c (initS c)).halo_yz_buffer_bot = (initS c).halo_yz_buffer_bot ∧
    (initLoadStore c (initS c)).halo_yz_buffer_top = (initS c).halo_yz_buffer_top ∧
    initLoadStore c (initS c) = initS c := by
  have h : initLoadStore c (initS c) = initS c := by
    obtain ⟨p0, p1, p2, fx, lx, fy, ly, fz, lz, yy, ng, a, b, d, e⟩ := c
    cases p0 <;> cases p1 <;> cases p2 <;> cases fx <;> cases lx <;> cases fy <;>
      cases ly <;> cases fz <;> cases lz <;> cases yy <;> rfl
  exact ⟨by rw [h], by rw [h], by rw [h], by rw [h], h⟩

/-- C6: `loadOuterFront` issues exactly one bulk contiguous copy of
`mx*my*halo_widths_z[BOT]` elements starting at `(0,0,0)`, and `loadOuterBack`
one bulk copy of `mx*my*halo_widths_z[TOP]` elements starting at
`(0,0,mz-halo_widths_z[TOP])`; neither goes through a staging buffer. -/
theorem C6_front_back_bulk (c : Config) :
    loadOuterFrontCmd c (initS c)
      = .loadMeshWithOffset ⟨0, 0, 0⟩ ⟨0, 0, 0⟩
          ((c.mx : Int) * (c.my : Int) * ((initS c).hwz.bot : Int)) ∧
    loadOuterBackCmd c (initS c)
      = .loadMeshWithOffset ⟨0, 0, (c.mz : Int) - (initS c).hwz.top⟩
          ⟨0, 0, (c.mz : Int) - (initS c).hwz.top⟩
          ((c.mx : Int) * (c.my : Int) * ((initS c).hwz.top : Int)) ∧
    usesStaging (loadOuterFrontCmd c (initS c)) = false ∧
    usesStaging (loadOuterBackCmd c (initS c)) = false := by
  refine ⟨?_, ?_, rfl, rfl⟩ <;>
    simp [loadOuterFrontCmd, loadOuterBackCmd, Config.mxy, Int3.mk.injEq, mul_assoc]

/-- C8: the batch load driver issues all six loads on the single shared
default channel, while the batch store driver issues the six stores on six
pairwise distinct channels. -/
theorem C8_batch_channels (c : Config) :
    ((loadOuterHalos c (initS c)).map Prod.fst) = List.replicate 6 STREAM_DEFAULT ∧
    ((storeInnerHalos c (initS c)).map Prod.fst).Nodup := by
  constructor
  · rfl
  · show ([STREAM_4, STREAM_5, STREAM_2, STREAM_3, STREAM_6, STREAM_1] : List Nat).Nodup
    decide

/-- An arbitrary concrete configuration used to exercise teardown. -/
def cfgC9 : Config where
  lperi0 := true
  lperi1 := true
  lperi2 := true
  lfirst_proc_x := false
  llast_proc_x := false
  lfirst_proc_y := false
  llast_proc_y := false
  lfirst_proc_z := false
  llast_proc_z := false
  lyinyang := false
  nghost := 1
  nx := 2
  ny := 2
  nz := 2
  num_vtxbuf := 1

/-- C9 counterexample: `finalLoadStore` leaves the buffer pointers non-null
(they are not set to null after `free`), and a second invocation releases all
four staging buffers a second time — the free log doubles — so the double
call is neither a detected error nor a no-op. -/
theorem C9_counterexample :
    (finalLoadStore (initS cfgC9)).halo_xz_buffer_bot = some 0 ∧
    (finalLoadStore (initS cfgC9)).halo_yz_buffer_bot = some 1 ∧
    (finalLoadStore (initS cfgC9)).halo_xz_buffer_top = some 2 ∧
    (finalLoadStore (initS cfgC9)).halo_yz_buffer_top = some 3 ∧
    (finalLoadStore (initS cfgC9)).freeLog = [0, 1, 2, 3] ∧
    (finalLoadStore (finalLoadStore (initS cfgC9))).freeLog
      = [0, 1, 2, 3, 0, 1, 2, 3] := by decide

/-- C9 amended: `finalLoadStore` does not null the four buffer pointers, so
invoking it twice after initialization releases each staging buffer twice
(a double free); repeated teardown is neither detected nor idempotent. -/
theorem C9_double_free (c : Config) :
    (finalLoadStore (initS c)).halo_xz_buffer_bot = (initS c).halo_xz_buffer_bot ∧
    (finalLoadStore (initS c)).halo_yz_buffer_bot = (initS c).halo_yz_buffer_bot ∧
    (finalLoadStore (initS c)).halo_xz_buffer_top = (initS c).halo_xz_buffer_top ∧
    (finalLoadStore (initS c)).halo_yz_buffer_top = (initS c).halo_yz_buffer_top ∧
    (finalLoadStore (initS c)).freeLog = [0, 1, 2, 3] ∧
    (finalLoadStore (finalLoadStore (initS c))).freeLog
      = [0, 1, 2, 3, 0, 1, 2, 3] := by
  exact ⟨rfl, rfl, rfl, rfl, rfl, rfl⟩

/-- The linear index of a mesh cell is at least `mxy * z`. -/
lemma lin_lower (c : Config) (p : Int3) (hp : inMesh c p) :
    (c.mxy : Int) * p.z ≤ lin c p := by
  obtain ⟨hx0, _, hy0, _, _, _⟩ := hp
  have h : 0 ≤ (c.mx : Int) * p.y := mul_nonneg (by positivity) hy0
  unfold lin
  linarith

/-- The linear index of a mesh cell is below `mxy * (z+1)`. -/
lemma lin_upper (c : Config) (p : Int3) (hp : inMesh c p) :
    lin c p < (c.mxy : Int) * (p.z + 1) := by
  obtain ⟨hx0, hxm, hy0, hym, _, _⟩ := hp
  have hmxy : (c.mxy : Int) = (c.mx : Int) * (c.my : Int) := by
    simp [Config.mxy]
  have h3 : (c.mx : Int) * p.y ≤ (c.mx : Int) * (c.my : Int) - (c.mx : Int) := by
    have h := mul_le_mul_of_nonneg_left (show p.y ≤ (c.my : Int) - 1 by omega)
      (show (0 : Int) ≤ (c.mx : Int) by positivity)
    rw [mul_sub, mul_one] at h
    linarith
  unfold lin
  rw [hmxy, mul_add, mul_one]
  linarith

/-- A mesh cell's linear index lies below `mxy * K` exactly when its z
coordinate lies below `K`. -/
lemma lin_lt_iff (c : Config) (p : Int3) (hp : inMesh c p) (K : Int) :
    lin c p < (c.mxy : Int) * K ↔ p.z < K := by
  constructor
  · intro h
    by_contra hk
    push_neg at hk
    have h1 := lin_lower c p hp
    have h2 : (c.mxy : Int) * K ≤ (c.mxy : Int) * p.z :=
      mul_le_mul_of_nonneg_left hk (by positivity)
    linarith
  · intro h
    have h1 := lin_upper c p hp
    have h2 : (c.mxy : Int) * (p.z + 1) ≤ (c.mxy : Int) * K :=
      mul_le_mul_of_nonneg_left (by omega) (by positivity)
    linarith

/-- A mesh cell's linear index is at least `mxy * K` exactly when its z
coordinate is at least `K`. -/
lemma lin_le_iff (c : Config) (p : Int3) (hp : inMesh c p) (K : Int) :
    (c.mxy : Int) * K ≤ lin c p ↔ K ≤ p.z := by
  rw [← not_iff_not]
  push_neg
  exact lin_lt_iff c p hp K

/-- The mesh cells touched by `loadOuterFront` are exactly the bottom z slab
of `halo_widths_z[BOT]` full xy planes. -/
lemma frontCells_iff (c : Config) (s : LSState) (p : Int3) :
    cmdCells c (loadOuterFrontCmd c s) p ↔
      inMesh c p ∧ p.z < (s.hwz.bot : Int) := by
  show inMesh c p ∧ _ ∧ _ ↔ _
  constructor
  · rintro ⟨hp, -, h2⟩
    refine ⟨hp, ?_⟩
    have := (lin_lt_iff c p hp (s.hwz.bot : Int)).mp ?_
    · exact this
    · simpa [lin, mul_comm] using h2
  · rintro ⟨hp, hz⟩
    refine ⟨hp, ?_, ?_⟩
    · obtain ⟨hx0, _, hy0, _, hz0, _⟩ := hp
      have h2 : 0 ≤ (c.mx : Int) * p.y := mul_nonneg (by positivity) hy0
      have h3 : 0 ≤ (c.mxy : Int) * p.z := mul_nonneg (by positivity) hz0
      show lin c ⟨0, 0, 0⟩ ≤ lin c p
      simp only [lin]
      linarith
    · have := (lin_lt_iff c p hp (s.hwz.bot : Int)).mpr hz
      simpa [lin, mul_comm] using this

/-- The mesh cells touched by `loadOuterBack` are exactly the top z slab of
`halo_widths_z[TOP]` full xy planes. -/
lemma backCells_iff (c : Config) (s : LSState) (p : Int3) :
    cmdCells c (loadOuterBackCmd c s) p ↔
      inMesh c p ∧ (c.mz : Int) - s.hwz.top ≤ p.z := by
  show inMesh c p ∧ _ ∧ _ ↔ _
  constructor
  · rintro ⟨hp, h1, -⟩
    refine ⟨hp, ?_⟩
    have h1' : (c.mxy : Int) * ((c.mz : Int) - s.hwz.top) ≤ lin c p := by
      have : lin c ⟨0, 0, (c.mz : Int) - s.hwz.top⟩
          = (c.mxy : Int) * ((c.mz : Int) - s.hwz.top) := by
        simp [lin]
      linarith [h1, this.symm.le]
    exact (lin_le_iff c p hp _).mp h1'
  · rintro ⟨hp, hz⟩
    have hsrc : lin c ⟨0, 0, (c.mz : Int) - s.hwz.top⟩
        = (c.mxy : Int) * ((c.mz : Int) - s.hwz.top) := by
      simp [lin]
    refine ⟨hp, ?_, ?_⟩
    · have := (lin_le_iff c p hp _).mpr hz
      show lin c ⟨0, 0, (c.mz : Int) - s.hwz.top⟩ ≤ lin c p
      rw [hsrc]
      exact this
    · have hlt := (lin_lt_iff c p hp (c.mz : Int)).mpr hp.2.2.2.2.2
      show lin c p < lin c ⟨0, 0, (c.mz : Int) - s.hwz.top⟩ + (c.mxy : Int) * s.hwz.top
      rw [hsrc]
      have : (c.mxy : Int) * ((c.mz : Int) - s.hwz.top) + (c.mxy : Int) * s.hwz.top
          = (c.mxy : Int) * (c.mz : Int) := by ring
      rw [this]
      exact hlt

/-- The six load commands issued by `loadOuterHalos`, in issue order. -/
def loadCmds (c : Config) (s : LSState) : List TransferCmd :=
  (loadOuterHalos c s).map Prod.snd

/-- A degenerate configuration: `nz = 1` with a non-periodic z axis whose
subdomain is both first and last along z, so the z halo widths `(2, 2)` sum
past `mz = 3`. -/
def cfgC2 : Config where
  lperi0 := true
  lperi1 := true
  lperi2 := false
  lfirst_proc_x := false
  llast_proc_x := false
  lfirst_proc_y := false
  llast_proc_y := false
  lfirst_proc_z := true
  llast_proc_z := true
  lyinyang := false
  nghost := 1
  nx := 1
  ny := 1
  nz := 1
  num_vtxbuf := 1

/-- C2 counterexample: on the degenerate configuration `cfgC2` the mesh cell
`(0,0,1)` is touched by both the front and the back load, so the six load
regions are not pairwise disjoint. -/
theorem C2_counterexample :
    cmdCells cfgC2 (loadOuterFrontCmd cfgC2 (initS cfgC2)) ⟨0, 0, 1⟩ ∧
    cmdCells cfgC2 (loadOuterBackCmd cfgC2 (initS cfgC2)) ⟨0, 0, 1⟩ ∧
    loadOuterFrontCmd cfgC2 (initS cfgC2) ≠ loadOuterBackCmd cfgC2 (initS cfgC2) := by
  decide

set_option maxHeartbeats 1600000 in
/-- C2 amended: for every initialized configuration whose total halo width
along each axis is at most the full extent, the cell sets of the six load
operations are pairwise disjoint and their union is exactly the halo shell
(the mesh cells outside the interior box). -/
theorem C2_amended_partition (c : Config) (p : Int3)
    (hx : (initS c).hwx.tot ≤ c.mx) (hy : (initS c).hwy.tot ≤ c.my)
    (hz : (initS c).hwz.tot ≤ c.mz) :
    List.Pairwise (fun t u => ¬ (cmdCells c t p ∧ cmdCells c u p))
      (loadCmds c (initS c)) ∧
    ((∃ t ∈ loadCmds c (initS c), cmdCells c t p) ↔ inShell c (initS c) p) := by
  obtain ⟨⟨h1, h2⟩, ⟨h3, h4⟩, ⟨h5, h6⟩, ⟨h7, h8⟩, ⟨h9, h10⟩, ⟨h11, h12⟩,
    htx, hty, htz⟩ := initS_width_bounds c
  rw [htx] at hx
  rw [hty] at hy
  rw [htz] at hz
  simp only [loadCmds, loadOuterHalos, List.map_cons, List.map_nil,
    List.pairwise_cons, List.mem_cons, List.not_mem_nil, or_false, false_or,
    forall_eq_or_imp, forall_eq, List.Pairwise.nil, and_true, true_and,
    exists_eq_or_imp, exists_eq_left, false_implies, implies_true,
    forall_const]
  simp only [frontCells_iff, backCells_iff]
  simp only [loadOuterTopCmd, loadOuterBotCmd, loadOuterLeftCmd,
    loadOuterRightCmd]
  simp only [cmdCells, inBox, inMesh, inShell, inInterior]
  omega

/-- A well-formed concrete configuration: every axis non-periodic with the
subdomain both first and last, so all six widths are widened to `nghost+1`. -/
def cfgStd : Config where
  lperi0 := false
  lperi1 := false
  lperi2 := false
  lfirst_proc_x := true
  llast_proc_x := true
  lfirst_proc_y := true
  llast_proc_y := true
  lfirst_proc_z := true
  llast_proc_z := true
  lyinyang := false
  nghost := 3
  nx := 9
  ny := 9
  nz := 9
  num_vtxbuf := 2

/-- C2 amended witness at the concrete configuration `cfgStd` and the origin
cell. -/
theorem C2_amended_partition_witness :
    List.Pairwise
      (fun t u => ¬ (cmdCells cfgStd t ⟨0, 0, 0⟩ ∧ cmdCells cfgStd u ⟨0, 0, 0⟩))
      (loadCmds cfgStd (initS cfgStd)) ∧
    ((∃ t ∈ loadCmds cfgStd (initS cfgStd), cmdCells cfgStd t ⟨0, 0, 0⟩) ↔
      inShell cfgStd (initS cfgStd) ⟨0, 0, 0⟩) :=
  C2_amended_partition cfgStd ⟨0, 0, 0⟩ (by decide) (by decide) (by decide)

/-- The six store commands issued by `storeInnerHalos`, in issue order. -/
def storeCmds (c : Config) (s : LSState) : List TransferCmd :=
  (storeInnerHalos c s).map Prod.snd

/-- Whether a transfer command carries a coordinate box (all primitives except
the bulk `loadMeshWithOffset`). -/
def buildsBox (t : TransferCmd) : Bool :=
  match t with
  | .loadMeshWithOffset _ _ _ => false
  | _ => true

/-- A degenerate configuration with positive extents: everything periodic,
`nghost = 1`, `nx = ny = nz = 1`. -/
def cfgC4 : Config where
  lperi0 := true
  lperi1 := true
  lperi2 := true
  lfirst_proc_x := false
  llast_proc_x := false
  lfirst_proc_y := false
  llast_proc_y := false
  lfirst_proc_z := false
  llast_proc_z := false
  lyinyang := false
  nghost := 1
  nx := 1
  ny := 1
  nz := 1
  num_vtxbuf := 1

/-- C4 counterexample: on `cfgC4`, a configuration with positive interior
extents and ghost depth, the box built by `storeInnerBot` has `start.z > end.z`,
so positivity of the extents alone does not preclude `start ≥ end`. -/
theorem C4_counterexample :
    0 < cfgC4.nx ∧ 0 < cfgC4.ny ∧ 0 < cfgC4.nz ∧ 0 < cfgC4.nghost ∧
    ¬ properBox (cmdBox (storeInnerBotCmd cfgC4 (initS cfgC4))).1
        (cmdBox (storeInnerBotCmd cfgC4 (initS cfgC4))).2 := by decide

/-- C4 amended: when the ghost depth is positive and each interior extent
exceeds the corresponding total halo width, every coordinate box built by a
load or store operation (all twelve commands except the two box-less bulk
front/back loads) satisfies `start < end` on all three axes. -/
theorem C4_amended_proper (c : Config) (hg : 1 ≤ c.nghost)
    (hx : (initS c).hwx.tot < c.nx) (hy : (initS c).hwy.tot < c.ny)
    (hz : (initS c).hwz.tot < c.nz) :
    ∀ t ∈ loadCmds c (initS c) ++ storeCmds c (initS c),
      buildsBox t = true → properBox (cmdBox t).1 (cmdBox t).2 := by
  obtain ⟨⟨h1, h2⟩, ⟨h3, h4⟩, ⟨h5, h6⟩, ⟨h7, h8⟩, ⟨h9, h10⟩, ⟨h11, h12⟩,
    htx, hty, htz⟩ := initS_width_bounds c
  rw [htx] at hx
  rw [hty] at hy
  rw [htz] at hz
  simp only [loadCmds, storeCmds, loadOuterHalos, storeInnerHalos,
    List.map_cons, List.map_nil, List.cons_append, List.nil_append,
    List.mem_cons, List.not_mem_nil, or_false, forall_eq_or_imp, forall_eq]
  refine ⟨?_, ?_, ?_, ?_, ?_, ?_, ?_, ?_, ?_, ?_, ?_, ?_⟩ <;>
    simp only [loadOuterFrontCmd, loadOuterBackCmd, loadOuterTopCmd,
      loadOuterBotCmd, loadOuterLeftCmd, loadOuterRightCmd, storeInnerFrontCmd,
      storeInnerBackCmd, storeInnerBotCmd, storeInnerTopCmd, storeInnerLeftCmd,
      storeInnerRightCmd, buildsBox, cmdBox, properBox, Config.mx, Config.my,
      Config.mz, Config.l1, Config.l2, Config.m1, Config.m2, Config.n1,
      Config.n2, Bool.false_eq_true, false_implies, true_implies] <;>
    first
    | trivial
    | omega

/-- C4 amended witness: on `cfgStd` the box of `storeInnerBot` is proper. -/
theorem C4_amended_proper_witness :
    properBox (cmdBox (storeInnerBotCmd cfgStd (initS cfgStd))).1
      (cmdBox (storeInnerBotCmd cfgStd (initS cfgStd))).2 :=
  C4_amended_proper cfgStd (by decide) (by decide) (by decide) (by decide)
    (storeInnerBotCmd cfgStd (initS cfgStd)) (by decide) (by decide)

/-- The command is the inner-plane plate primitive with the given side tag. -/
def isIXYPlateWithSide (t : TransferCmd) (side : Nat) : Prop :=
  ∃ s e, t = .storeIXYPlate s e side

/-- The command is the staged-plate store primitive through the given buffer. -/
def isStagedStoreWithBuf (t : TransferCmd) (b : BufId) : Prop :=
  ∃ s e g, t = .storePlate s e b g

/-- A degenerate configuration: `nghost = 1`, unit interior extents, z axis
non-periodic with the subdomain first along z, so `halo_widths_z[BOT] = 2`
exceeds the interior extent `nz = 1`. -/
def cfgC7 : Config where
  lperi0 := true
  lperi1 := true
  lperi2 := false
  lfirst_proc_x := false
  llast_proc_x := false
  lfirst_proc_y := false
  llast_proc_y := false
  lfirst_proc_z := true
  llast_proc_z := false
  lyinyang := false
  nghost := 1
  nx := 1
  ny := 1
  nz := 1
  num_vtxbuf := 1

/-- C7 counterexample: on `cfgC7` the box of `storeInnerFront` spans z in
`[1,3)` while the 0-based interior region bounded by `l1..l2, m1..m2, n1..n2`
spans z in `[1,2)`, so the stored cell `(1,1,2)` is a ghost cell outside the
interior region. -/
theorem C7_counterexample :
    cmdCells cfgC7 (storeInnerFrontCmd cfgC7 (initS cfgC7)) ⟨1, 1, 2⟩ ∧
    ¬ inInteriorLMN cfgC7 ⟨1, 1, 2⟩ := by decide

/-- C7 amended: when each interior extent is at least `nghost + 1` (so the
widest inner plate, of width `nghost+1`, fits inside the interior), every
store operation targets the interior region bounded by the 1-based interior
indices `l1..l2, m1..m2, n1..n2` (0-based inclusive-start exclusive-end), the
front/back stores use the inner-plane plate primitive with side tags `BOT`
and `TOP`, and the other four stores use the staged plate primitive each
through its own dedicated buffer. -/
theorem C7_stores_interior (c : Config) (hx : c.nghost + 1 ≤ c.nx)
    (hy : c.nghost + 1 ≤ c.ny) (hz : c.nghost + 1 ≤ c.nz) :
    (∀ t ∈ storeCmds c (initS c), ∀ p, cmdCells c t p → inInteriorLMN c p) ∧
    isIXYPlateWithSide (storeInnerFrontCmd c (initS c)) BOT ∧
    isIXYPlateWithSide (storeInnerBackCmd c (initS c)) TOP ∧
    isStagedStoreWithBuf (storeInnerBotCmd c (initS c)) .xz_bot ∧
    isStagedStoreWithBuf (storeInnerTopCmd c (initS c)) .xz_top ∧
    isStagedStoreWithBuf (storeInnerLeftCmd c (initS c)) .yz_bot ∧
    isStagedStoreWithBuf (storeInnerRightCmd c (initS c)) .yz_top := by
  obtain ⟨⟨h1, h2⟩, ⟨h3, h4⟩, ⟨h5, h6⟩, ⟨h7, h8⟩, ⟨h9, h10⟩, ⟨h11, h12⟩,
    htx, hty, htz⟩ := initS_width_bounds c
  refine ⟨?_, ⟨_, _, rfl⟩, ⟨_, _, rfl⟩, ⟨_, _, _, rfl⟩, ⟨_, _, _, rfl⟩,
    ⟨_, _, _, rfl⟩, ⟨_, _, _, rfl⟩⟩
  simp only [storeCmds, storeInnerHalos, List.map_cons, List.map_nil,
    List.mem_cons, List.not_mem_nil, or_false, forall_eq_or_imp, forall_eq]
  refine ⟨?_, ?_, ?_, ?_, ?_, ?_⟩ <;>
    (intro p
     simp only [storeInnerFrontCmd, storeInnerBackCmd, storeInnerBotCmd,
       storeInnerTopCmd, storeInnerLeftCmd, storeInnerRightCmd, cmdCells,
       inBox, inMesh, inInteriorLMN, Config.mx, Config.my, Config.mz,
       Config.l1, Config.l2, Config.m1, Config.m2, Config.n1, Config.n2]
     omega)

/-- C7 witness: at `cfgStd`, every store command's cells lie in the interior
region, and the primitive/buffer assignments are as stated. -/
theorem C7_stores_interior_witness :
    (∀ t ∈ storeCmds cfgStd (initS cfgStd), ∀ p,
      cmdCells cfgStd t p → inInteriorLMN cfgStd p) ∧
    isIXYPlateWithSide (storeInnerFrontCmd cfgStd (initS cfgStd)) BOT ∧
    isIXYPlateWithSide (storeInnerBackCmd cfgStd (initS cfgStd)) TOP ∧
    isStagedStoreWithBuf (storeInnerBotCmd cfgStd (initS cfgStd)) .xz_bot ∧
    isStagedStoreWithBuf (storeInnerTopCmd cfgStd (initS cfgStd)) .xz_top ∧
    isStagedStoreWithBuf (storeInnerLeftCmd cfgStd (initS cfgStd)) .yz_bot ∧
    isStagedStoreWithBuf (storeInnerRightCmd cfgStd (initS cfgStd)) .yz_top :=
  C7_stores_interior cfgStd (by decide) (by decide) (by decide)

/-- `a ≤ a'`, `b ≤ b'`, `e ≤ e'` give `a*b*e*d ≤ a'*b'*e'*d`. -/
lemma mul_le_mul4 (a b e d a' b' e' : Nat) (h1 : a ≤ a') (h2 : b ≤ b')
    (h3 : e ≤ e') : a * b * e * d ≤ a' * b' * e' * d :=
  Nat.mul_le_mul (Nat.mul_le_mul (Nat.mul_le_mul h1 h2) h3) le_rfl

/-- C10: each staging buffer is large enough for every plate staged through
it — the allocated element counts `halo_xz_size[side] =
mx*nz*halo_widths_y[side]*NUM_VTXBUF_HANDLES` and `halo_yz_size[side] =
ny*nz*halo_widths_x[side]*NUM_VTXBUF_HANDLES` dominate the volume of the
corresponding load and store boxes times the field count. -/
theorem C10_staging_capacity (c : Config) :
    boxVolume (cmdBox (loadOuterBotCmd c (initS c))).1
        (cmdBox (loadOuterBotCmd c (initS c))).2 * c.num_vtxbuf
      ≤ (initS c).halo_xz_size_bot ∧
    boxVolume (cmdBox (loadOuterTopCmd c (initS c))).1
        (cmdBox (loadOuterTopCmd c (initS c))).2 * c.num_vtxbuf
      ≤ (initS c).halo_xz_size_top ∧
    boxVolume (cmdBox (loadOuterLeftCmd c (initS c))).1
        (cmdBox (loadOuterLeftCmd c (initS c))).2 * c.num_vtxbuf
      ≤ (initS c).halo_yz_size_bot ∧
    boxVolume (cmdBox (loadOuterRightCmd c (initS c))).1
        (cmdBox (loadOuterRightCmd c (initS c))).2 * c.num_vtxbuf
      ≤ (initS c).halo_yz_size_top ∧
    boxVolume (cmdBox (storeInnerBotCmd c (initS c))).1
        (cmdBox (storeInnerBotCmd c (initS c))).2 * c.num_vtxbuf
      ≤ (initS c).halo_xz_size_bot ∧
    boxVolume (cmdBox (storeInnerTopCmd c (initS c))).1
        (cmdBox (storeInnerTopCmd c (initS c))).2 * c.num_vtxbuf
      ≤ (initS c).halo_xz_size_top ∧
    boxVolume (cmdBox (storeInnerLeftCmd c (initS c))).1
        (cmdBox (storeInnerLeftCmd c (initS c))).2 * c.num_vtxbuf
      ≤ (initS c).halo_yz_size_bot ∧
    boxVolume (cmdBox (storeInnerRightCmd c (initS c))).1
        (cmdBox (storeInnerRightCmd c (initS c))).2 * c.num_vtxbuf
      ≤ (initS c).halo_yz_size_top := by
  obtain ⟨⟨h1, h2⟩, ⟨h3, h4⟩, ⟨h5, h6⟩, ⟨h7, h8⟩, ⟨h9, h10⟩, ⟨h11, h12⟩,
    htx, hty, htz⟩ := initS_width_bounds c
  have hszxb : (initS c).halo_xz_size_bot
      = c.mx * c.nz * (initS c).hwy.bot * c.num_vtxbuf := rfl
  have hszxt : (initS c).halo_xz_size_top
      = c.mx * c.nz * (initS c).hwy.top * c.num_vtxbuf := rfl
  have hszyb : (initS c).halo_yz_size_bot
      = c.ny * c.nz * (initS c).hwx.bot * c.num_vtxbuf := rfl
  have hszyt : (initS c).halo_yz_size_top
      = c.ny * c.nz * (initS c).hwx.top * c.num_vtxbuf := rfl
  rw [hszxb, hszxt, hszyb, hszyt]
  simp only [loadOuterBotCmd, loadOuterTopCmd, loadOuterLeftCmd,
    loadOuterRightCmd, storeInnerBotCmd, storeInnerTopCmd, storeInnerLeftCmd,
    storeInnerRightCmd, cmdBox, boxVolume]
  refine ⟨?_, ?_, ?_, ?_, ?_, ?_, ?_, ?_⟩
  · calc _ ≤ c.mx * (initS c).hwy.bot * c.nz * c.num_vtxbuf :=
        mul_le_mul4 _ _ _ _ _ _ _
          (by
          first
          | (simp only [Config.mx, Config.my, Config.mz, Config.l1,
               Config.l2, Config.m1, Config.m2, Config.n1, Config.n2]
             omega)
          | omega)
          (by
          first
          | (simp only [Config.mx, Config.my, Config.mz, Config.l1,
               Config.l2, Config.m1, Config.m2, Config.n1, Config.n2]
             omega)
          | omega)
          (by
          first
          | (simp only [Config.mx, Config.my, Config.mz, Config.l1,
               Config.l2, Config.m1, Config.m2, Config.n1, Config.n2]
             omega)
          | omega)
      _ = c.mx * c.nz * (initS c).hwy.bot * c.num_vtxbuf := by ring
  · calc _ ≤ c.mx * (initS c).hwy.top * c.nz * c.num_vtxbuf :=
        mul_le_mul4 _ _ _ _ _ _ _
          (by
          first
          | (simp only [Config.mx, Config.my, Config.mz, Config.l1,
               Config.l2, Config.m1, Config.m2, Config.n1, Config.n2]
             omega)
          | omega)
          (by
          first
          | (simp only [Config.mx, Config.my, Config.mz, Config.l1,
               Config.l2, Config.m1, Config.m2, Config.n1, Config.n2]
             omega)
          | omega)
          (by
          first
          | (simp only [Config.mx, Config.my, Config.mz, Config.l1,
               Config.l2, Config.m1, Config.m2, Config.n1, Config.n2]
             omega)
          | omega)
      _ = c.mx * c.nz * (initS c).hwy.top * c.num_vtxbuf := by ring
  · calc _ ≤ (initS c).hwx.bot * c.ny * c.nz * c.num_vtxbuf :=
        mul_le_mul4 _ _ _ _ _ _ _
          (by
          first
          | (simp only [Config.mx, Config.my, Config.mz, Config.l1,
               Config.l2, Config.m1, Config.m2, Config.n1, Config.n2]
             omega)
          | omega)
          (by
          first
          | (simp only [Config.mx, Config.my, Config.mz, Config.l1,
               Config.l2, Config.m1, Config.m2, Config.n1, Config.n2]
             omega)
          | omega)
          (by
          first
          | (simp only [Config.mx, Config.my, Config.mz, Config.l1,
               Config.l2, Config.m1, Config.m2, Config.n1, Config.n2]
             omega)
          | omega)
      _ = c.ny * c.nz * (initS c).hwx.bot * c.num_vtxbuf := by ring
  · calc _ ≤ (initS c).hwx.top * c.ny * c.nz * c.num_vtxbuf :=
        mul_le_mul4 _ _ _ _ _ _ _
          (by
          first
          | (simp only [Config.mx, Config.my, Config.mz, Config.l1,
               Config.l2, Config.m1, Config.m2, Config.n1, Config.n2]
             omega)
          | omega)
          (by
          first
          | (simp only [Config.mx, Config.my, Config.mz, Config.l1,
               Config.l2, Config.m1, Config.m2, Config.n1, Config.n2]
             omega)
          | omega)
          (by
          first
          | (simp only [Config.mx, Config.my, Config.mz, Config.l1,
               Config.l2, Config.m1, Config.m2, Config.n1, Config.n2]
             omega)
          | omega)
      _ = c.ny * c.nz * (initS c).hwx.top * c.num_vtxbuf := by ring
  · calc _ ≤ c.mx * (initS c).hwy.bot * c.nz * c.num_vtxbuf :=
        mul_le_mul4 _ _ _ _ _ _ _
          (by
          first
          | (simp only [Config.mx, Config.my, Config.mz, Config.l1,
               Config.l2, Config.m1, Config.m2, Config.n1, Config.n2]
             omega)
          | omega)
          (by
          first
          | (simp only [Config.mx, Config.my, Config.mz, Config.l1,
               Config.l2, Config.m1, Config.m2, Config.n1, Config.n2]
             omega)
          | omega)
          (by
          first
          | (simp only [Config.mx, Config.my, Config.mz, Config.l1,
               Config.l2, Config.m1, Config.m2, Config.n1, Config.n2]
             omega)
          | omega)
      _ = c.mx * c.nz * (initS c).hwy.bot * c.num_vtxbuf := by ring
  · calc _ ≤ c.mx * (initS c).hwy.top * c.nz * c.num_vtxbuf :=
        mul_le_mul4 _ _ _ _ _ _ _
          (by
          first
          | (simp only [Config.mx, Config.my, Config.mz, Config.l1,
               Config.l2, Config.m1, Config.m2, Config.n1, Config.n2]
             omega)
          | omega)
          (by
          first
          | (simp only [Config.mx, Config.my, Config.mz, Config.l1,
               Config.l2, Config.m1, Config.m2, Config.n1, Config.n2]
             omega)
          | omega)
          (by
          first
          | (simp only [Config.mx, Config.my, Config.mz, Config.l1,
               Config.l2, Config.m1, Config.m2, Config.n1, Config.n2]
             omega)
          | omega)
      _ = c.mx * c.nz * (initS c).hwy.top * c.num_vtxbuf := by ring
  · calc _ ≤ (initS c).hwx.bot * c.ny * c.nz * c.num_vtxbuf :=
        mul_le_mul4 _ _ _ _ _ _ _
          (by
          first
          | (simp only [Config.mx, Config.my, Config.mz, Config.l1,
               Config.l2, Config.m1, Config.m2, Config.n1, Config.n2]
             omega)
          | omega)
          (by
          first
          | (simp only [Config.mx, Config.my, Config.mz, Config.l1,
               Config.l2, Config.m1, Config.m2, Config.n1, Config.n2]
             omega)
          | omega)
          (by
          first
          | (simp only [Config.mx, Config.my, Config.mz, Config.l1,
               Config.l2, Config.m1, Config.m2, Config.n1, Config.n2]
             omega)
          | omega)
      _ = c.ny * c.nz * (initS c).hwx.bot * c.num_vtxbuf := by ring
  · calc _ ≤ (initS c).hwx.top * c.ny * c.nz * c.num_vtxbuf :=
        mul_le_mul4 _ _ _ _ _ _ _
          (by
          first
          | (simp only [Config.mx, Config.my, Config.mz, Config.l1,
               Config.l2, Config.m1, Config.m2, Config.n1, Config.n2]
             omega)
          | omega)
          (by
          first
          | (simp only [Config.mx, Config.my, Config.mz, Config.l1,
               Config.l2, Config.m1, Config.m2, Config.n1, Config.n2]
             omega)
          | omega)
          (by
          first
          | (simp only [Config.mx, Config.my, Config.mz, Config.l1,
               Config.l2, Config.m1, Config.m2, Config.n1, Config.n2]
             omega)
          | omega)
      _ = c.ny * c.nz * (initS c).hwx.top * c.num_vtxbuf := by ring
end LoadStore
